import Mathlib

/-!
Shallow embedding of `src/scripts/processing/download_era5_data.py`
(repository `lcsc/turc_index`).

The script builds five static ERA5-Land request descriptors, completes each
with `year`/`month` lists derived from the command-line year range, and issues
one blocking `cdsapi` retrieval per descriptor, writing one `.grib` file each.

Python dictionaries with heterogeneous values (strings and lists of strings)
are embedded as association lists over a `Value` sum type; `dict.copy()`
followed by `dict.update(...)` becomes the functional `dictUpdate`.
The run itself is embedded as a trace of events, parameterized by a failure
oracle `fails : Nat → Bool` saying whether the i-th issued retrieval raises
(modelling an unhandled remote error).
-/

/-- A Python dict value occurring in the script: either a string or a list of strings. -/
inductive Value where
  | s (v : String)
  | l (v : List String)
deriving DecidableEq, Repr

/-- A Python dict with string keys, embedded as an association list in insertion order. -/
abbrev Dict := List (String × Value)

/-- Python dict update for a single key: replace the first binding of `k` in place,
or append `(k, v)` at the end when `k` is absent (CPython insertion-order semantics). -/
def dictUpdate : Dict → String → Value → Dict
  | [], k, v => [(k, v)]
  | p :: d, k, v => if p.1 = k then (k, v) :: d else p :: dictUpdate d k v

/-- Python dict lookup: first binding wins. -/
def dictGet : Dict → String → Option Value
  | [], _ => none
  | p :: d, k => if p.1 = k then some p.2 else dictGet d k

/-- `f"{n:02d}"` for a natural number: zero-pad to width 2. -/
def pad2 (n : Nat) : String :=
  if n < 10 then "0" ++ toString n else toString n

/-- `[f"{hour:02d}:00" for hour in range(24)]` (line 17 of the script). -/
def hourStrings : List String :=
  (List.range 24).map (fun h => pad2 h ++ ":00")

/-- `[f"{month:02d}" for month in range(1, 13)]` (line 81 of the script). -/
def monthStrings : List String :=
  (List.range' 1 12).map pad2

/-- `range(start_year, end_year + 1)` over Python ints (line 79), as a list of integers. -/
def yearRange (s e : Int) : List Int :=
  (List.range (e + 1 - s).toNat).map (fun (i : Nat) => s + (i : Int))

/-- `[str(year) for year in range(start_year, end_year + 1)]` (line 79). -/
def yearStrings (s e : Int) : List String :=
  (yearRange s e).map toString

/-- One entry of `variables_config`: variable name, dataset id, static request dict. -/
structure VariableConfig where
  name : String
  dataset : String
  request : Dict
deriving DecidableEq, Repr

/-- `variables_config[0]` (lines 11-21 of the script). -/
def cfgT2mHourly : VariableConfig :=
  { name := "t2mhourly"
    dataset := "reanalysis-era5-land-monthly-means"
    request :=
      [("product_type", Value.l ["monthly_averaged_reanalysis_by_hour_of_day"]),
       ("variable", Value.l ["2m_temperature"]),
       ("time", Value.l hourStrings),
       ("data_format", Value.s "grib"),
       ("download_format", Value.s "unarchived")] }

/-- `variables_config[1]` (lines 22-32 of the script). -/
def cfgT2m : VariableConfig :=
  { name := "t2m"
    dataset := "reanalysis-era5-land-monthly-means"
    request :=
      [("product_type", Value.l ["monthly_averaged_reanalysis"]),
       ("variable", Value.l ["2m_temperature"]),
       ("time", Value.l ["00:00"]),
       ("data_format", Value.s "grib"),
       ("download_format", Value.s "unarchived")] }

/-- `variables_config[2]` (lines 33-43 of the script). -/
def cfgTdew : VariableConfig :=
  { name := "tdew"
    dataset := "reanalysis-era5-land-monthly-means"
    request :=
      [("product_type", Value.l ["monthly_averaged_reanalysis"]),
       ("variable", Value.l ["2m_dewpoint_temperature"]),
       ("time", Value.l ["00:00"]),
       ("data_format", Value.s "grib"),
       ("download_format", Value.s "unarchived")] }

/-- `variables_config[3]` (lines 44-54 of the script). -/
def cfgPrecipitation : VariableConfig :=
  { name := "precipitation"
    dataset := "reanalysis-era5-land-monthly-means"
    request :=
      [("product_type", Value.l ["monthly_averaged_reanalysis_by_hour_of_day"]),
       ("variable", Value.l ["total_precipitation"]),
       ("time", Value.l ["00:00"]),
       ("data_format", Value.s "grib"),
       ("download_format", Value.s "unarchived")] }

/-- `variables_config[4]` (lines 55-65 of the script). -/
def cfgSolarRadiation : VariableConfig :=
  { name := "solar_radiation"
    dataset := "reanalysis-era5-land-monthly-means"
    request :=
      [("product_type", Value.l ["monthly_averaged_reanalysis_by_hour_of_day"]),
       ("variable", Value.l ["surface_solar_radiation_downwards"]),
       ("time", Value.l ["00:00"]),
       ("data_format", Value.s "grib"),
       ("download_format", Value.s "unarchived")] }

/-- The full static descriptor list `variables_config` (lines 10-66), in source order. -/
def variables_config : List VariableConfig :=
  [cfgT2mHourly, cfgT2m, cfgTdew, cfgPrecipitation, cfgSolarRadiation]

/-- `request = config["request"].copy(); request.update({"year": ..., "month": ...})`
(lines 77-81): the completed request for a year range. -/
def completeRequest (s e : Int) (req : Dict) : Dict :=
  dictUpdate (dictUpdate req "year" (Value.l (yearStrings s e)))
    "month" (Value.l monthStrings)

/-- `os.path.join(output_dir, file)` for a relative file name. -/
def joinPath (dir file : String) : String :=
  dir ++ "/" ++ file

/-- `os.path.join(output_dir, f"{config['name']}_{start_year}_{end_year}.grib")` (line 73). -/
def outputFile (dir name : String) (s e : Int) : String :=
  joinPath dir (name ++ "_" ++ toString s ++ "_" ++ toString e ++ ".grib")

/-- Observable events of a run: client construction, directory creation,
console output, and an issued retrieval call. -/
inductive Event where
  | constructClient
  | makeDirs (dir : String)
  | print (line : String)
  | retrieve (dataset : String) (request : Dict) (target : String)
deriving DecidableEq, Repr

def isRetrieve : Event → Bool
  | .retrieve _ _ _ => true
  | _ => false

def isMakeDirs : Event → Bool
  | .makeDirs _ => true
  | _ => false

def isClientConstruct : Event → Bool
  | .constructClient => true
  | _ => false

/-- Result of a run: the event trace, the files written by completed
retrievals (path, dataset, completed request), and whether the run finished
without an unhandled remote error. -/
structure RunResult where
  events : List Event
  files : List (String × String × Dict)
  ok : Bool
deriving DecidableEq, Repr

/-- The `for config in variables_config` loop (lines 72-85). `fails i` says the
i-th issued retrieval raises; a raised error aborts the loop immediately after
the issued call, writing no file for that variable. -/
def runLoop (s e : Int) (dir : String) (fails : Nat → Bool) :
    List VariableConfig → Nat → RunResult
  | [], _ => ⟨[], [], true⟩
  | cfg :: rest, i =>
    let target := outputFile dir cfg.name s e
    let req := completeRequest s e cfg.request
    let pre := Event.print
      ("Downloading " ++ cfg.name ++ " for " ++ toString s ++ "-" ++ toString e ++ "...")
    if fails i then
      ⟨[pre, Event.retrieve cfg.dataset req target], [], false⟩
    else
      let r := runLoop s e dir fails rest (i + 1)
      ⟨pre :: Event.retrieve cfg.dataset req target ::
         Event.print ("Downloaded " ++ cfg.name ++ " for " ++ toString s ++ "-" ++
           toString e ++ ": " ++ target) :: r.events,
       (target, cfg.dataset, req) :: r.files,
       r.ok⟩

/-- `download_era5_variable(start_year, end_year, output_dir)` (lines 5-85):
construct the client, create the output directory, then run the loop. -/
def download_era5_variable (s e : Int) (dir : String) (fails : Nat → Bool) : RunResult :=
  let r := runLoop s e dir fails variables_config 0
  { events := Event.constructClient :: Event.makeDirs dir :: r.events
    files := r.files
    ok := r.ok }

/-- The three events one loop iteration contributes when its retrieval succeeds. -/
def varEvents (s e : Int) (dir : String) (cfg : VariableConfig) : List Event :=
  [Event.print
     ("Downloading " ++ cfg.name ++ " for " ++ toString s ++ "-" ++ toString e ++ "..."),
   Event.retrieve cfg.dataset (completeRequest s e cfg.request) (outputFile dir cfg.name s e),
   Event.print ("Downloaded " ++ cfg.name ++ " for " ++ toString s ++ "-" ++
     toString e ++ ": " ++ outputFile dir cfg.name s e)]

/-- A failure oracle under which no retrieval raises. -/
def noFail : Nat → Bool := fun _ => false

/-- A failure oracle under which exactly the retrieval at index `n` (0-based) raises. -/
def failAt (n : Nat) : Nat → Bool := fun i => i == n

/-- `os.makedirs(dir, exist_ok=ok)` over a set of existing directories:
raises `FileExistsError` only when the directory exists and `exist_ok` is false. -/
def os_makedirs (existing : List String) (dir : String) (ok : Bool) :
    Except String (List String) :=
  if existing.contains dir then
    if ok then Except.ok existing else Except.error "FileExistsError"
  else Except.ok (dir :: existing)

/-- Disk contents after a run: each written file maps to the (dataset, request)
that produced it, later writes winning; unwritten paths keep their prior contents. -/
def diskAfter (init : String → Option (String × Dict))
    (writes : List (String × String × Dict)) (p : String) : Option (String × Dict) :=
  match writes.reverse.find? (fun w => w.1 == p) with
  | some w => some w.2
  | none => init p

/-- Strip leading and trailing whitespace, as `int(str)` does before parsing. -/
def stripWs (cs : List Char) : List Char :=
  ((cs.dropWhile Char.isWhitespace).reverse.dropWhile Char.isWhitespace).reverse

/-- Decimal value of a nonempty all-digit character list, else `none`. -/
def digitsVal? (cs : List Char) : Option Nat :=
  if cs.isEmpty then none
  else if cs.all Char.isDigit then
    some (cs.foldl (fun acc c => 10 * acc + (c.toNat - 48)) 0)
  else none

/-- Model of Python `int(s)` on a decimal string: optional sign, digits,
surrounding whitespace ignored; `none` models an uncaught `ValueError`. -/
def parsePyInt (str : String) : Option Int :=
  match stripWs str.toList with
  | '-' :: rest => (digitsVal? rest).map (fun n => -(n : Int))
  | '+' :: rest => (digitsVal? rest).map (fun n => (n : Int))
  | cs => (digitsVal? cs).map (fun n => (n : Int))

/-- Outcome of the `__main__` block's argument handling (lines 87-93). -/
inductive MainStep where
  | usage
  | intError (bad : String)
  | runDownload (s e : Int)
deriving DecidableEq, Repr

/-- The `__main__` block (lines 87-95): argument-count check, then the two
`int(...)` conversions in order, then the call to `download_era5_variable`. -/
def pyMain (argv : List String) : MainStep :=
  if argv.length = 3 then
    match parsePyInt (argv.getD 1 "") with
    | none => MainStep.intError (argv.getD 1 "")
    | some s =>
      match parsePyInt (argv.getD 2 "") with
      | none => MainStep.intError (argv.getD 2 "")
      | some e => MainStep.runDownload s e
  else MainStep.usage

/-- The hard-coded output directory passed on line 95. -/
def fixedOutputDir : String := "../../preprocessing/ERA5_land_data/data"

/-- The usage line printed on argument-count mismatch (line 88). -/
def usageLine : String := "Uso: python download_era5_data.py <año_inicio> <año_fin>"

/-- All events of a whole command-line invocation. -/
def progEvents (argv : List String) (fails : Nat → Bool) : List Event :=
  match pyMain argv with
  | MainStep.usage => [Event.print usageLine]
  | MainStep.intError _ => []
  | MainStep.runDownload s e => (download_era5_variable s e fixedOutputDir fails).events

/-- Paths of the files a whole command-line invocation writes. -/
def progFiles (argv : List String) (fails : Nat → Bool) : List String :=
  match pyMain argv with
  | MainStep.runDownload s e =>
    (download_era5_variable s e fixedOutputDir fails).files.map (fun w => w.1)
  | _ => []

/-- Process exit status: 1 for the explicit `sys.exit(1)`, 1 for an uncaught
exception (`ValueError` from `int`, or a remote failure), 0 on success. -/
def exitCode (argv : List String) (fails : Nat → Bool) : Nat :=
  match pyMain argv with
  | MainStep.usage => 1
  | MainStep.intError _ => 1
  | MainStep.runDownload s e =>
    if (download_era5_variable s e fixedOutputDir fails).ok then 0 else 1

/-! ### Helper lemmas about the dict embedding and the year range -/

theorem dictGet_dictUpdate_same (d : Dict) (k : String) (v : Value) :
    dictGet (dictUpdate d k v) k = some v := by
  induction d with
  | nil => simp [dictUpdate, dictGet]
  | cons p d ih =>
    by_cases h : p.1 = k
    · simp [dictUpdate, h, dictGet]
    · simp [dictUpdate, h, dictGet, ih]

theorem dictGet_dictUpdate_other (d : Dict) (k k' : String) (v : Value) (h : k' ≠ k) :
    dictGet (dictUpdate d k v) k' = dictGet d k' := by
  have hk : ¬ (k = k') := fun hh => h hh.symm
  induction d with
  | nil => simp [dictUpdate, dictGet, hk]
  | cons p d ih =>
    by_cases hp : p.1 = k
    · have hp' : ¬ p.1 = k' := by rw [hp]; exact hk
      simp [dictUpdate, hp, dictGet, hk, hp']
    · simp [dictUpdate, hp, dictGet, ih]

theorem mem_yearRange (s e y : Int) : y ∈ yearRange s e ↔ s ≤ y ∧ y ≤ e := by
  unfold yearRange
  simp only [List.mem_map, List.mem_range]
  constructor
  · rintro ⟨i, hi, rfl⟩
    omega
  · rintro ⟨h1, h2⟩
    exact ⟨(y - s).toNat, by omega, by omega⟩

theorem yearRange_pairwise (s e : Int) : (yearRange s e).Pairwise (· < ·) := by
  unfold yearRange
  rw [List.pairwise_map]
  exact (List.pairwise_lt_range _).imp (fun {a b} h => by omega)

/-! ### Claim theorems -/

/-- Claim C1: for every call with `start_year ≤ end_year`, each of the five
completed requests has its `year` field equal to the ordered list of every year
from `start_year` to `end_year` inclusive rendered as decimal strings, and its
`month` field equal to the twelve zero-padded month strings; both fields are the
same value for all five variables, and for 2000-2001 the year field is
`["2000", "2001"]`. -/
theorem completed_request_year_month (s e : Int) (_hse : s ≤ e) :
    (∀ cfg ∈ variables_config,
        dictGet (completeRequest s e cfg.request) "year"
          = some (Value.l (yearStrings s e)) ∧
        dictGet (completeRequest s e cfg.request) "month"
          = some (Value.l monthStrings)) ∧
    yearStrings s e = (yearRange s e).map toString ∧
    (∀ y : Int, y ∈ yearRange s e ↔ s ≤ y ∧ y ≤ e) ∧
    (yearRange s e).Pairwise (· < ·) ∧
    monthStrings = ["01", "02", "03", "04", "05", "06",
      "07", "08", "09", "10", "11", "12"] ∧
    yearStrings 2000 2001 = ["2000", "2001"] := by
  refine ⟨?_, rfl, fun y => mem_yearRange s e y, yearRange_pairwise s e, by decide, by decide⟩
  intro cfg _
  constructor
  · unfold completeRequest
    rw [dictGet_dictUpdate_other _ _ _ _ (by decide), dictGet_dictUpdate_same]
  · unfold completeRequest
    rw [dictGet_dictUpdate_same]

/-- Witness for C1 at `start_year = 2000`, `end_year = 2001`. -/
theorem completed_request_year_month_witness :
    (2000 : Int) ≤ 2001 ∧
    ((∀ cfg ∈ variables_config,
        dictGet (completeRequest 2000 2001 cfg.request) "year"
          = some (Value.l (yearStrings 2000 2001)) ∧
        dictGet (completeRequest 2000 2001 cfg.request) "month"
          = some (Value.l monthStrings)) ∧
     yearStrings 2000 2001 = (yearRange 2000 2001).map toString ∧
     (∀ y : Int, y ∈ yearRange 2000 2001 ↔ 2000 ≤ y ∧ y ≤ 2001) ∧
     (yearRange 2000 2001).Pairwise (· < ·) ∧
     monthStrings = ["01", "02", "03", "04", "05", "06",
       "07", "08", "09", "10", "11", "12"] ∧
     yearStrings 2000 2001 = ["2000", "2001"]) :=
  ⟨by decide, completed_request_year_month 2000 2001 (by decide)⟩

/-- Claim C2: a failure-free `download(start_year, end_year, output_dir)` writes
exactly one file per variable named `{name}_{start_year}_{end_year}.grib` under
`output_dir`; for 2000-2001 these are exactly the five expected `.grib` files,
and the five paths are pairwise distinct. -/
theorem output_file_names (s e : Int) (dir : String) :
    (download_era5_variable s e dir noFail).files.map (fun w => w.1)
      = variables_config.map (fun cfg => joinPath dir
          (cfg.name ++ "_" ++ toString s ++ "_" ++ toString e ++ ".grib")) ∧
    (download_era5_variable 2000 2001 dir noFail).files.map (fun w => w.1)
      = [joinPath dir "t2mhourly_2000_2001.grib", joinPath dir "t2m_2000_2001.grib",
         joinPath dir "tdew_2000_2001.grib", joinPath dir "precipitation_2000_2001.grib",
         joinPath dir "solar_radiation_2000_2001.grib"] ∧
    (download_era5_variable s e dir noFail).files.length = 5 ∧
    ((download_era5_variable 2000 2001 "data" noFail).files.map (fun w => w.1)).Nodup :=
  ⟨rfl, rfl, rfl, by decide⟩

/-- Claim C5: in a failure-free run exactly one client is constructed and exactly
five retrievals are issued, one per variable, strictly in the descriptor-list
order, each surrounded by a progress line before and after; the full trace is
the client construction, the directory creation, then the five per-variable
event triples in order. -/
theorem run_trace_structure (s e : Int) (dir : String) :
    (download_era5_variable s e dir noFail).events
      = Event.constructClient :: Event.makeDirs dir ::
        (variables_config.map (varEvents s e dir)).flatten ∧
    (download_era5_variable s e dir noFail).events.countP isClientConstruct = 1 ∧
    (download_era5_variable s e dir noFail).events.filter isRetrieve
      = variables_config.map (fun cfg => Event.retrieve cfg.dataset
          (completeRequest s e cfg.request) (outputFile dir cfg.name s e)) ∧
    ((download_era5_variable s e dir noFail).events.filter isRetrieve).length = 5 ∧
    (download_era5_variable s e dir noFail).ok = true :=
  ⟨rfl, rfl, rfl, rfl, rfl⟩

/-- Claim C7: completion is a pure extension of the static request: the
completed request is exactly the descriptor's request dict with the two
bindings `year` and `month` appended, and lookup of every other key is
unchanged. (In the embedding the descriptor list is immutable by construction,
mirroring `config["request"].copy()` on line 77.) -/
theorem completion_is_pure_extension (s e : Int) (cfg : VariableConfig)
    (hmem : cfg ∈ variables_config) :
    completeRequest s e cfg.request
      = cfg.request ++
          [("year", Value.l (yearStrings s e)), ("month", Value.l monthStrings)] ∧
    (∀ k, k ≠ "year" → k ≠ "month" →
        dictGet (completeRequest s e cfg.request) k = dictGet cfg.request k) := by
  constructor
  · fin_cases hmem <;> rfl
  · intro k h1 h2
    unfold completeRequest
    rw [dictGet_dictUpdate_other _ _ _ _ h2, dictGet_dictUpdate_other _ _ _ _ h1]

/-- Witness for C7 at the first descriptor and years 2000-2001. -/
theorem completion_is_pure_extension_witness :
    cfgT2mHourly ∈ variables_config ∧
    (completeRequest 2000 2001 cfgT2mHourly.request
       = cfgT2mHourly.request ++
           [("year", Value.l (yearStrings 2000 2001)), ("month", Value.l monthStrings)] ∧
     (∀ k, k ≠ "year" → k ≠ "month" →
        dictGet (completeRequest 2000 2001 cfgT2mHourly.request) k
          = dictGet cfgT2mHourly.request k)) :=
  ⟨by simp [variables_config],
   completion_is_pure_extension 2000 2001 cfgT2mHourly (by simp [variables_config])⟩

/-- Claim C3: if the retrieval for the variable at 0-based position `n` raises,
the run aborts: it reports failure, exactly the files of the `n` earlier
variables are on disk, and the retrievals issued are exactly those for the
first `n + 1` variables in order (none after the failing one). -/
theorem remote_failure_aborts (s e : Int) (dir : String) (n : Nat) (hn : n < 5) :
    (download_era5_variable s e dir (failAt n)).ok = false ∧
    (download_era5_variable s e dir (failAt n)).files.map (fun w => w.1)
      = (variables_config.take n).map (fun cfg => outputFile dir cfg.name s e) ∧
    (download_era5_variable s e dir (failAt n)).events.filter isRetrieve
      = (variables_config.take (n + 1)).map (fun cfg => Event.retrieve cfg.dataset
          (completeRequest s e cfg.request) (outputFile dir cfg.name s e)) ∧
    ((download_era5_variable s e dir (failAt n)).events.filter isRetrieve).length
      = n + 1 := by
  interval_cases n <;> exact ⟨rfl, rfl, rfl, rfl⟩

/-- Witness for C3: the second variable (position 1) fails; the first variable's
file is on disk and variables 3-5 are never attempted. -/
theorem remote_failure_aborts_witness :
    1 < 5 ∧
    ((download_era5_variable 2000 2001 "data" (failAt 1)).ok = false ∧
     (download_era5_variable 2000 2001 "data" (failAt 1)).files.map (fun w => w.1)
       = (variables_config.take 1).map (fun cfg => outputFile "data" cfg.name 2000 2001) ∧
     (download_era5_variable 2000 2001 "data" (failAt 1)).events.filter isRetrieve
       = (variables_config.take 2).map (fun cfg => Event.retrieve cfg.dataset
           (completeRequest 2000 2001 cfg.request) (outputFile "data" cfg.name 2000 2001)) ∧
     ((download_era5_variable 2000 2001 "data" (failAt 1)).events.filter isRetrieve).length
       = 2) :=
  ⟨by decide, remote_failure_aborts 2000 2001 "data" 1 (by decide)⟩

/-- Claim C4: on a wrong argument count the program prints only the usage line,
exits with status 1 (nonzero), creates no directory, constructs no client, and
issues no retrieval. -/
theorem wrong_arg_count (argv : List String) (fails : Nat → Bool)
    (h : argv.length ≠ 3) :
    progEvents argv fails = [Event.print usageLine] ∧
    exitCode argv fails = 1 ∧
    (progEvents argv fails).countP isMakeDirs = 0 ∧
    (progEvents argv fails).countP isRetrieve = 0 ∧
    (progEvents argv fails).countP isClientConstruct = 0 := by
  have hm : pyMain argv = MainStep.usage := by simp [pyMain, h]
  refine ⟨?_, ?_, ?_, ?_, ?_⟩ <;>
    simp [progEvents, exitCode, hm, List.countP, List.countP.go,
      isMakeDirs, isRetrieve, isClientConstruct]

/-- Witness for C4: invoking with no arguments after the program name. -/
theorem wrong_arg_count_witness :
    (["download_era5_data.py"] : List String).length ≠ 3 ∧
    (progEvents ["download_era5_data.py"] noFail = [Event.print usageLine] ∧
     exitCode ["download_era5_data.py"] noFail = 1 ∧
     (progEvents ["download_era5_data.py"] noFail).countP isMakeDirs = 0 ∧
     (progEvents ["download_era5_data.py"] noFail).countP isRetrieve = 0 ∧
     (progEvents ["download_era5_data.py"] noFail).countP isClientConstruct = 0) :=
  ⟨by decide, wrong_arg_count ["download_era5_data.py"] noFail (by decide)⟩

/-- Claim C6: when the output directory already exists, directory creation with
`exist_ok=True` does not raise and returns the directory set unchanged (and it
never raises for any state); the run still issues all five retrievals; and each
of the five output files of a 2000-2001 rerun holds the freshly retrieved
content afterwards, whatever was on disk before (overwrite, no skip-if-exists). -/
theorem rerun_existing_dir (existing : List String) (dir : String) (s e : Int)
    (init : String → Option (String × Dict)) (hmem : dir ∈ existing) :
    os_makedirs existing dir true = Except.ok existing ∧
    (∀ ex2 d2, ∃ r, os_makedirs ex2 d2 true = Except.ok r) ∧
    ((download_era5_variable s e dir noFail).events.filter isRetrieve).length = 5 ∧
    Event.makeDirs dir ∈ (download_era5_variable s e dir noFail).events ∧
    diskAfter init (download_era5_variable 2000 2001 "data" noFail).files
        "data/t2mhourly_2000_2001.grib"
      = some ("reanalysis-era5-land-monthly-means",
          completeRequest 2000 2001 cfgT2mHourly.request) ∧
    diskAfter init (download_era5_variable 2000 2001 "data" noFail).files
        "data/t2m_2000_2001.grib"
      = some ("reanalysis-era5-land-monthly-means",
          completeRequest 2000 2001 cfgT2m.request) ∧
    diskAfter init (download_era5_variable 2000 2001 "data" noFail).files
        "data/tdew_2000_2001.grib"
      = some ("reanalysis-era5-land-monthly-means",
          completeRequest 2000 2001 cfgTdew.request) ∧
    diskAfter init (download_era5_variable 2000 2001 "data" noFail).files
        "data/precipitation_2000_2001.grib"
      = some ("reanalysis-era5-land-monthly-means",
          completeRequest 2000 2001 cfgPrecipitation.request) ∧
    diskAfter init (download_era5_variable 2000 2001 "data" noFail).files
        "data/solar_radiation_2000_2001.grib"
      = some ("reanalysis-era5-land-monthly-means",
          completeRequest 2000 2001 cfgSolarRadiation.request) := by
  refine ⟨?_, ?_, rfl, List.Mem.tail _ (List.Mem.head _), rfl, rfl, rfl, rfl, rfl⟩
  · simp [os_makedirs, List.elem_eq_mem, hmem]
  · intro ex2 d2
    unfold os_makedirs
    by_cases h2 : d2 ∈ ex2 <;> simp [h2]

/-- Witness for C6: the directory `data` already exists and every prior file
content is overwritten. -/
theorem rerun_existing_dir_witness :
    "data" ∈ ["data"] ∧
    (os_makedirs ["data"] "data" true = Except.ok ["data"] ∧
     (∀ ex2 d2, ∃ r, os_makedirs ex2 d2 true = Except.ok r) ∧
     ((download_era5_variable 2000 2001 "data" noFail).events.filter isRetrieve).length = 5 ∧
     Event.makeDirs "data" ∈ (download_era5_variable 2000 2001 "data" noFail).events ∧
     diskAfter (fun _ => some ("old", []))
         (download_era5_variable 2000 2001 "data" noFail).files
         "data/t2mhourly_2000_2001.grib"
       = some ("reanalysis-era5-land-monthly-means",
           completeRequest 2000 2001 cfgT2mHourly.request) ∧
     diskAfter (fun _ => some ("old", []))
         (download_era5_variable 2000 2001 "data" noFail).files
         "data/t2m_2000_2001.grib"
       = some ("reanalysis-era5-land-monthly-means",
           completeRequest 2000 2001 cfgT2m.request) ∧
     diskAfter (fun _ => some ("old", []))
         (download_era5_variable 2000 2001 "data" noFail).files
         "data/tdew_2000_2001.grib"
       = some ("reanalysis-era5-land-monthly-means",
           completeRequest 2000 2001 cfgTdew.request) ∧
     diskAfter (fun _ => some ("old", []))
         (download_era5_variable 2000 2001 "data" noFail).files
         "data/precipitation_2000_2001.grib"
       = some ("reanalysis-era5-land-monthly-means",
           completeRequest 2000 2001 cfgPrecipitation.request) ∧
     diskAfter (fun _ => some ("old", []))
         (download_era5_variable 2000 2001 "data" noFail).files
         "data/solar_radiation_2000_2001.grib"
       = some ("reanalysis-era5-land-monthly-means",
           completeRequest 2000 2001 cfgSolarRadiation.request)) :=
  ⟨List.mem_singleton.mpr rfl,
   rerun_existing_dir ["data"] "data" 2000 2001 (fun _ => some ("old", []))
     (List.mem_singleton.mpr rfl)⟩

/-- Claim C8: a command-line invocation with two valid integer arguments runs
the download with the fixed relative output directory
`../../preprocessing/ERA5_land_data/data`, writing each variable's file as
`{name}_{start_year}_{end_year}.grib` under it. -/
theorem cli_writes_fixed_dir (p a1 a2 : String) (s e : Int)
    (h1 : parsePyInt a1 = some s) (h2 : parsePyInt a2 = some e) :
    pyMain [p, a1, a2] = MainStep.runDownload s e ∧
    fixedOutputDir = "../../preprocessing/ERA5_land_data/data" ∧
    progFiles [p, a1, a2] noFail
      = variables_config.map (fun cfg => joinPath "../../preprocessing/ERA5_land_data/data"
          (cfg.name ++ "_" ++ toString s ++ "_" ++ toString e ++ ".grib")) := by
  have hm : pyMain [p, a1, a2] = MainStep.runDownload s e := by
    simp [pyMain, h1, h2]
  refine ⟨hm, rfl, ?_⟩
  unfold progFiles
  rw [hm]
  rfl

/-- Witness for C8 at arguments `"2000"` and `"2001"`. -/
theorem cli_writes_fixed_dir_witness :
    parsePyInt "2000" = some 2000 ∧ parsePyInt "2001" = some 2001 ∧
    (pyMain ["download_era5_data.py", "2000", "2001"] = MainStep.runDownload 2000 2001 ∧
     fixedOutputDir = "../../preprocessing/ERA5_land_data/data" ∧
     progFiles ["download_era5_data.py", "2000", "2001"] noFail
       = variables_config.map (fun cfg => joinPath "../../preprocessing/ERA5_land_data/data"
           (cfg.name ++ "_" ++ toString (2000 : Int) ++ "_" ++ toString (2001 : Int) ++ ".grib"))) :=
  ⟨by decide, by decide,
   cli_writes_fixed_dir "download_era5_data.py" "2000" "2001" 2000 2001
     (by decide) (by decide)⟩

/-- Claim C9: no `start_year ≤ end_year` precondition is enforced: with
`start_year > end_year` the run proceeds normally — the year range is empty,
every completed request carries an empty `year` list, the directory is still
created, all five retrievals are still issued, and the output files keep the
usual `{name}_{start_year}_{end_year}.grib` names. -/
theorem reversed_year_range (s e : Int) (dir : String) (h : e < s) :
    yearRange s e = [] ∧
    yearStrings s e = [] ∧
    (∀ cfg ∈ variables_config,
        dictGet (completeRequest s e cfg.request) "year" = some (Value.l [])) ∧
    ((download_era5_variable s e dir noFail).events.filter isRetrieve).length = 5 ∧
    Event.makeDirs dir ∈ (download_era5_variable s e dir noFail).events ∧
    (download_era5_variable s e dir noFail).files.map (fun w => w.1)
      = variables_config.map (fun cfg => outputFile dir cfg.name s e) := by
  have hyr : yearRange s e = [] := by
    unfold yearRange
    have h0 : (e + 1 - s).toNat = 0 := by omega
    rw [h0]
    rfl
  have hys : yearStrings s e = [] := by rw [yearStrings, hyr]; rfl
  refine ⟨hyr, hys, ?_, rfl, List.Mem.tail _ (List.Mem.head _), rfl⟩
  intro cfg _
  unfold completeRequest
  rw [dictGet_dictUpdate_other _ _ _ _ (by decide), dictGet_dictUpdate_same, hys]

/-- Witness for C9 at `start_year = 2001 > end_year = 2000`. -/
theorem reversed_year_range_witness :
    (2000 : Int) < 2001 ∧
    (yearRange 2001 2000 = [] ∧
     yearStrings 2001 2000 = [] ∧
     (∀ cfg ∈ variables_config,
        dictGet (completeRequest 2001 2000 cfg.request) "year" = some (Value.l [])) ∧
     ((download_era5_variable 2001 2000 "data" noFail).events.filter isRetrieve).length = 5 ∧
     Event.makeDirs "data" ∈ (download_era5_variable 2001 2000 "data" noFail).events ∧
     (download_era5_variable 2001 2000 "data" noFail).files.map (fun w => w.1)
       = variables_config.map (fun cfg => outputFile "data" cfg.name 2001 2000)) :=
  ⟨by decide, reversed_year_range 2001 2000 "data" (by decide)⟩

/-- Claim C10: with exactly two arguments of which one is not a valid decimal
integer string, the program stops on the failed `int(...)` conversion — exit
status 1 (nonzero), no event at all: no directory creation, no client
construction, no retrieval, and no file written. -/
theorem bad_int_arg (p a1 a2 : String) (fails : Nat → Bool)
    (h : parsePyInt a1 = none ∨ parsePyInt a2 = none) :
    (∃ bad, pyMain [p, a1, a2] = MainStep.intError bad) ∧
    progEvents [p, a1, a2] fails = [] ∧
    progFiles [p, a1, a2] fails = [] ∧
    exitCode [p, a1, a2] fails = 1 := by
  have hm : ∃ bad, pyMain [p, a1, a2] = MainStep.intError bad := by
    rcases h with h | h
    · exact ⟨a1, by simp [pyMain, h]⟩
    · rcases h1 : parsePyInt a1 with _ | sv
      · exact ⟨a1, by simp [pyMain, h1]⟩
      · exact ⟨a2, by simp [pyMain, h1, h]⟩
  obtain ⟨bad, hb⟩ := hm
  refine ⟨⟨bad, hb⟩, ?_, ?_, ?_⟩ <;> simp [progEvents, progFiles, exitCode, hb]

/-- Witness for C10: second CLI argument `"abc"` is not an integer. -/
theorem bad_int_arg_witness :
    (parsePyInt "abc" = none ∨ parsePyInt "2000" = none) ∧
    ((∃ bad, pyMain ["download_era5_data.py", "abc", "2000"] = MainStep.intError bad) ∧
     progEvents ["download_era5_data.py", "abc", "2000"] noFail = [] ∧
     progFiles ["download_era5_data.py", "abc", "2000"] noFail = [] ∧
     exitCode ["download_era5_data.py", "abc", "2000"] noFail = 1) :=
  ⟨Or.inl (by decide),
   bad_int_arg "download_era5_data.py" "abc" "2000" noFail (Or.inl (by decide))⟩
